import Mathlib

/-!
Shallow embedding of `src/index.ts` (grant-scraper).

Time is modelled as milliseconds since the Unix epoch (`Int`), matching
`Date.getTime()`. `Date` values in the source are such timestamps.
Locale-dependent date rendering (`toLocaleDateString('ja-JP')`) is
abstracted as a parameter `fmt : Int → String`, since its output depends
on the runtime ICU environment, not on the program logic.
-/

/-- `status: 'active' | 'upcoming' | 'closed'` from `GrantInfo`. -/
inductive GrantStatus where
  | active
  | upcoming
  | closed
deriving DecidableEq, Repr

/-- `currency: 'USD' | 'JPY' | 'EUR'` from `GrantInfo`. -/
inductive Currency where
  | USD
  | JPY
  | EUR
deriving DecidableEq, Repr

/-- `interface GrantDeadline` (src/index.ts lines 3-9). Optional fields
become `Option`; `Date` fields are epoch-millisecond timestamps. -/
structure GrantDeadline where
  start : Option Int := none
  «end» : Option Int := none
  isRolling : Bool
  nextDeadline : Option Int := none
  cycle : Option String := none
deriving DecidableEq, Repr

/-- `interface GrantInfo` (src/index.ts lines 11-26). -/
structure GrantInfo where
  title : String
  organization : String
  amount : String
  deadline : GrantDeadline
  description : String
  eligibility : String
  upfrontPayment : Bool
  url : String
  category : List String
  lastUpdated : Int
  minimumAmount : Int
  maximumAmount : Int
  status : GrantStatus
  currency : Currency
deriving DecidableEq, Repr

/-- `new Date('2024-12-01')` in epoch milliseconds. -/
def jfStart : Int := 1733011200000

/-- `new Date('2025-01-15')` in epoch milliseconds. -/
def jfEnd : Int := 1736899200000

/-- `new Date('2024-01-15')` in epoch milliseconds. -/
def saraiStart : Int := 1705276800000

/-- `new Date('2024-02-28')` in epoch milliseconds. -/
def saraiEnd : Int := 1709078400000

/-- The Pollination Project record pushed at src/index.ts lines 57-76.
`currentDate` is the scraper's reference time, `now` the wall clock read
by `new Date()` for `lastUpdated`. -/
def pollinationRecord (currentDate now : Int) : GrantInfo :=
  { title := "Pollination Project Daily Grant"
    organization := "The Pollination Project"
    amount := "$1,000"
    minimumAmount := 1000
    maximumAmount := 1000
    currency := Currency.USD
    deadline :=
      { isRolling := true
        cycle := some "daily"
        nextDeadline := some (currentDate + 24 * 60 * 60 * 1000) }
    description := "社会変革を目指す個人に対する日次の助成金。環境、教育、社会正義などの分野で活動する個人を支援。"
    eligibility := "世界中の個人が対象（団体も可）"
    upfrontPayment := true
    url := "https://thepollinationproject.org"
    category := ["Social Change", "Community", "Environment", "Education"]
    lastUpdated := now
    status := GrantStatus.active }

/-- The Japan Foundation record pushed at src/index.ts lines 82-102. -/
def japanFoundationRecord (now : Int) : GrantInfo :=
  { title := "Japan Foundation アートプラットフォーム助成"
    organization := "Japan Foundation"
    amount := "¥1,000,000 - ¥5,000,000"
    minimumAmount := 1000000
    maximumAmount := 5000000
    currency := Currency.JPY
    deadline :=
      { start := some jfStart
        «end» := some jfEnd
        isRolling := false
        nextDeadline := some jfEnd }
    description := "日本と海外のアーティスト・文化団体による共同プロジェクトの支援。"
    eligibility := "アーティスト、文化団体（国際協力が必須）"
    upfrontPayment := true
    url := "https://www.jpf.go.jp"
    category := ["Arts", "Culture", "International"]
    lastUpdated := now
    status := GrantStatus.upcoming }

/-- The SARAI record pushed at src/index.ts lines 108-128. -/
def saraiRecord (now : Int) : GrantInfo :=
  { title := "SARAI プロジェクト助成金"
    organization := "Sustainable Agriculture Research Program"
    amount := "¥500,000 - ¥2,000,000"
    minimumAmount := 500000
    maximumAmount := 2000000
    currency := Currency.JPY
    deadline :=
      { start := some saraiStart
        «end» := some saraiEnd
        isRolling := false
        nextDeadline := some saraiEnd }
    description := "持続可能な農業プロジェクト、特にアクアポニクスや都市農業の革新的なアプローチを支援"
    eligibility := "個人、団体（営利・非営利問わず）"
    upfrontPayment := true
    url := "https://sarai.example.com"
    category := ["Agriculture", "Sustainability", "Innovation", "Education"]
    lastUpdated := now
    status := GrantStatus.upcoming }

/-- `GrantScraper.scrapeGrants` (src/index.ts lines 51-131).
`browserUp` models `this.browser !== null` (set by the browser-launch
step, cleared state otherwise); `currentDate` is `this.currentDate`;
`now` is the wall-clock value used for each `new Date()` / `lastUpdated`.
The Pollination Project record is always pushed; the Japan Foundation
record only when `currentDate <= jfEnd`; the SARAI record is pushed
unconditionally. -/
def scrapeGrants (browserUp : Bool) (currentDate now : Int) : List GrantInfo :=
  if !browserUp then []
  else
    [pollinationRecord currentDate now]
      ++ (if currentDate ≤ jfEnd then [japanFoundationRecord now] else [])
      ++ [saraiRecord now]

/-- `GrantScraper.getAllGrants` (src/index.ts lines 133-137): returns
`scrapeGrants`'s list (the console log of the count is a side effect
with no influence on the returned value). -/
def getAllGrants (browserUp : Bool) (currentDate now : Int) : List GrantInfo :=
  scrapeGrants browserUp currentDate now

/-- One step of JavaScript `String.replace(pat, rep)` with a
single-character string pattern: only the FIRST occurrence of the
pattern character is replaced. -/
def replaceFirstChar (pat rep : Char) : List Char → List Char
  | [] => []
  | c :: cs => if c = pat then rep :: cs else c :: replaceFirstChar pat rep cs

/-- `GrantScraper.formatAmount` (src/index.ts lines 139-144):
`amount.replace('¥', '￥')` when the currency is `'JPY'`, identity
otherwise. JavaScript `replace` with a string pattern substitutes only
the first occurrence. -/
def formatAmount (amount : String) (currency : Currency) : String :=
  if currency = Currency.JPY then
    String.mk (replaceFirstChar '¥' '￥' amount.data)
  else amount

/-- `GrantScraper.formatDeadline` (src/index.ts lines 146-158),
parameterised by the locale date renderer `fmt` standing for
`Date.toLocaleDateString('ja-JP')`. -/
def formatDeadline (fmt : Int → String) (deadline : GrantDeadline) : String :=
  if deadline.isRolling then "常時募集中"
  else
    match deadline.nextDeadline with
    | some nd => "次回締切: " ++ fmt nd
    | none =>
      match deadline.start, deadline.«end» with
      | some s, some e => "募集期間: " ++ fmt s ++ " - " ++ fmt e
      | _, _ => "募集期間は公式サイトでご確認ください"

/-- The status label printed by `main` (src/index.ts line 174):
`grant.status === 'active' ? '募集中' : '募集予定'`. -/
def statusLabel (status : GrantStatus) : String :=
  if status = GrantStatus.active then "募集中" else "募集予定"

/-! ## Helper lemmas -/

/-- `replaceFirstChar` leaves a list without the pattern unchanged. -/
theorem replaceFirstChar_of_not_mem (pat rep : Char) :
    ∀ l : List Char, pat ∉ l → replaceFirstChar pat rep l = l := by
  intro l hl
  induction l with
  | nil => rfl
  | cons c cs ih =>
    simp only [List.mem_cons, not_or] at hl
    simp [replaceFirstChar, Ne.symm hl.1, ih hl.2]

/-- `replaceFirstChar` substitutes exactly the first occurrence of the
pattern. -/
theorem replaceFirstChar_first (pat rep : Char) :
    ∀ l₁ l₂ : List Char, pat ∉ l₁ →
      replaceFirstChar pat rep (l₁ ++ pat :: l₂) = l₁ ++ rep :: l₂ := by
  intro l₁ l₂ h₁
  induction l₁ with
  | nil => simp [replaceFirstChar]
  | cons c cs ih =>
    simp only [List.mem_cons, not_or] at h₁
    simp [replaceFirstChar, Ne.symm h₁.1, ih h₁.2]

/-- The three statically authored records, in authoring order
(src/index.ts: Pollination Project, then Japan Foundation, then SARAI). -/
def staticTable (currentDate now : Int) : List GrantInfo :=
  [pollinationRecord currentDate now, japanFoundationRecord now, saraiRecord now]

/-- Erase the wall-clock stamp, for comparing evaluations modulo
`lastUpdated`. -/
def eraseStamp (g : GrantInfo) : GrantInfo :=
  { g with lastUpdated := 0 }

/-- With the browser up, the output of `scrapeGrants` is one of two
explicit lists depending on the Japan Foundation window check. -/
theorem scrapeGrants_true_eq (t now : Int) :
    scrapeGrants true t now =
      if t ≤ jfEnd then
        [pollinationRecord t now, japanFoundationRecord now, saraiRecord now]
      else
        [pollinationRecord t now, saraiRecord now] := by
  by_cases h : t ≤ jfEnd <;> simp [scrapeGrants, h]

/-- The three records are pairwise distinguished by their titles. -/
theorem japanFoundationRecord_ne (t now n' : Int) :
    japanFoundationRecord n' ≠ pollinationRecord t now ∧
      japanFoundationRecord n' ≠ saraiRecord now := by
  constructor <;> intro h <;>
    simpa [japanFoundationRecord, pollinationRecord, saraiRecord] using
      congrArg GrantInfo.title h

/-! ## Claim theorems -/

/-- C1 counterexample: at reference time 2024-06-01 (1717200000000 ms),
which is strictly after the SARAI record's `deadline.end` (2024-02-28),
the non-rolling SARAI record is still included in the output of
`scrapeGrants`, refuting "a non-rolling record is included exactly when
the reference time is ≤ its `deadline.end`" for the SARAI record. -/
theorem sarai_included_after_end :
    (saraiRecord 0).deadline.isRolling = false ∧
      (saraiRecord 0).deadline.«end» = some saraiEnd ∧
      ¬ ((1717200000000 : Int) ≤ saraiEnd) ∧
      saraiRecord 0 ∈ scrapeGrants true 1717200000000 0 := by
  refine ⟨rfl, rfl, by decide, ?_⟩
  rw [scrapeGrants_true_eq, if_pos (by decide)]
  simp

/-- C1 (amended): the `referenceTime ≤ deadline.end` visibility rule
holds for the Japan Foundation record (it is included exactly when the
reference time is ≤ its `end`, 2025-01-15); the SARAI record, however,
is pushed unconditionally and is included for every reference time. -/
theorem nonRolling_visibility (t now : Int) :
    (japanFoundationRecord now ∈ scrapeGrants true t now ↔ t ≤ jfEnd) ∧
      saraiRecord now ∈ scrapeGrants true t now := by
  rw [scrapeGrants_true_eq]
  by_cases h : t ≤ jfEnd
  · simp [h]
  · have hne := japanFoundationRecord_ne t now now
    simp [h, hne.1, hne.2]

/-- C1 witness: at reference time 0 (≤ `jfEnd`) the Japan Foundation
record is included. -/
theorem nonRolling_visibility_witness :
    japanFoundationRecord 0 ∈ scrapeGrants true 0 0 :=
  (nonRolling_visibility 0 0).1.mpr (by decide)

/-- C2: for every reference time the rolling Pollination Project record
is included in `scrapeGrants`'s output, and its emitted
`deadline.nextDeadline` is exactly the reference time plus 24 hours
(24 * 60 * 60 * 1000 ms). -/
theorem rolling_always_included (t now : Int) :
    pollinationRecord t now ∈ scrapeGrants true t now ∧
      (pollinationRecord t now).deadline.nextDeadline =
        some (t + 24 * 60 * 60 * 1000) := by
  refine ⟨?_, rfl⟩
  rw [scrapeGrants_true_eq]
  by_cases h : t ≤ jfEnd <;> simp [h]

/-- C3 counterexample: on the catalog amount string
`"¥500,000 - ¥2,000,000"` with currency JPY, `formatAmount` replaces
only the first ASCII yen sign, so the result still contains an ASCII
yen glyph, refuting "every occurrence normalized". -/
theorem formatAmount_keeps_second_yen :
    formatAmount "¥500,000 - ¥2,000,000" Currency.JPY =
        "￥500,000 - ¥2,000,000" ∧
      '¥' ∈ (formatAmount "¥500,000 - ¥2,000,000" Currency.JPY).data := by
  constructor
  · rfl
  · decide

/-- C3 (amended): `formatAmount` is total; with currency JPY it replaces
exactly the FIRST occurrence of the ASCII yen glyph by the full-width
yen glyph (later occurrences are kept); a JPY string without the ASCII
glyph, and any string under a non-JPY currency, is returned unchanged. -/
theorem formatAmount_first_yen (amount : String) (c : Currency)
    (l₁ l₂ : List Char) (h₁ : '¥' ∉ l₁) :
    (c ≠ Currency.JPY → formatAmount amount c = amount) ∧
      ('¥' ∉ amount.data → formatAmount amount c = amount) ∧
      formatAmount (String.mk (l₁ ++ '¥' :: l₂)) Currency.JPY =
        String.mk (l₁ ++ '￥' :: l₂) := by
  refine ⟨?_, ?_, ?_⟩
  · intro hc
    simp [formatAmount, hc]
  · intro hmem
    cases c <;>
      simp [formatAmount, replaceFirstChar_of_not_mem '¥' '￥' amount.data hmem]
  · simp [formatAmount, replaceFirstChar_first '¥' '￥' l₁ l₂ h₁]

/-- C3 witness: instantiating the amended theorem at the spec's examples
(`"$1,000"` with USD unchanged, and a concrete JPY first-glyph
replacement). -/
theorem formatAmount_first_yen_witness :
    formatAmount "$1,000" Currency.USD = "$1,000" ∧
      formatAmount (String.mk (['a'] ++ '¥' :: ['b'])) Currency.JPY =
        String.mk (['a'] ++ '￥' :: ['b']) :=
  ⟨(formatAmount_first_yen "$1,000" Currency.USD ['a'] ['b'] (by decide)).1
      (by decide),
    (formatAmount_first_yen "$1,000" Currency.USD ['a'] ['b'] (by decide)).2.2⟩

/-- C4: `formatDeadline` is total (a function into `String`) and selects
one of four mutually exclusive renderings in strict priority order: the
rolling label whenever `isRolling` (even with `start`/`end`/
`nextDeadline` populated), else the next-deadline label when
`nextDeadline` is present, else the range label when both `start` and
`end` are present, else the generic fallback. It takes no reference-time
input. -/
theorem formatDeadline_priority (fmt : Int → String) (d : GrantDeadline) :
    (d.isRolling = true → formatDeadline fmt d = "常時募集中") ∧
      (d.isRolling = false → ∀ nd, d.nextDeadline = some nd →
        formatDeadline fmt d = "次回締切: " ++ fmt nd) ∧
      (d.isRolling = false → d.nextDeadline = none →
        ∀ s e, d.start = some s ∧ d.«end» = some e →
          formatDeadline fmt d = "募集期間: " ++ fmt s ++ " - " ++ fmt e) ∧
      (d.isRolling = false → d.nextDeadline = none →
        (d.start = none ∨ d.«end» = none) →
          formatDeadline fmt d = "募集期間は公式サイトでご確認ください") := by
  refine ⟨?_, ?_, ?_, ?_⟩
  · intro hr
    simp [formatDeadline, hr]
  · intro hr nd hnd
    simp [formatDeadline, hr, hnd]
  · rintro hr hnd s e ⟨hs, he⟩
    simp [formatDeadline, hr, hnd, hs, he]
  · rintro hr hnd h0
    rcases h0 with hs | he
    · rcases he2 : d.«end» with _ | e2 <;>
        simp [formatDeadline, hr, hnd, hs, he2]
    · rcases hs2 : d.start with _ | s2 <;>
        simp [formatDeadline, hr, hnd, hs2, he]
/-- C4 witness: a rolling deadline with populated `start`, `end` and
`nextDeadline` still renders the rolling label (rule 1 wins), and a
non-rolling deadline with only `start`/`end` renders the range label. -/
theorem formatDeadline_priority_witness :
    formatDeadline (fun _ => "x")
        { start := some 0, «end» := some 1, isRolling := true,
          nextDeadline := some 2 } = "常時募集中" ∧
      formatDeadline (fun _ => "x")
        { start := some 0, «end» := some 1, isRolling := false } =
          "募集期間: " ++ "x" ++ " - " ++ "x" :=
  ⟨(formatDeadline_priority (fun _ => "x")
        { start := some 0, «end» := some 1, isRolling := true,
          nextDeadline := some 2 }).1 rfl,
    (formatDeadline_priority (fun _ => "x")
        { start := some 0, «end» := some 1, isRolling := false }).2.2.1
      rfl rfl 0 1 ⟨rfl, rfl⟩⟩

/-- C5: evaluation is deterministic in the reference time: two runs of
`scrapeGrants` with the same browser state and reference time, but
different wall-clock readings `n₁`, `n₂` (the `new Date()` used for
`lastUpdated`), produce identical record lists once the `lastUpdated`
stamp is erased — same visible set, same `nextDeadline`s, same amount
and deadline fields. -/
theorem scrapeGrants_deterministic (b : Bool) (t n₁ n₂ : Int) :
    (scrapeGrants b t n₁).map eraseStamp =
      (scrapeGrants b t n₂).map eraseStamp := by
  cases b
  · rfl
  · rw [scrapeGrants_true_eq, scrapeGrants_true_eq]
    by_cases h : t ≤ jfEnd <;>
      simp [h, eraseStamp, pollinationRecord, japanFoundationRecord,
        saraiRecord]

/-- C6: for every reference time (each admits at least the Pollination
and SARAI records, hence more than one), the output of `scrapeGrants`
is a sublist of the static table in authoring order — Pollination
Project, Japan Foundation, SARAI — i.e. the visible records appear in
that fixed order, with no sorting applied. -/
theorem scrapeGrants_ordered (t now : Int) :
    (scrapeGrants true t now).Sublist (staticTable t now) ∧
      2 ≤ (scrapeGrants true t now).length := by
  rw [scrapeGrants_true_eq]
  by_cases h : t ≤ jfEnd <;> simp only [h, if_pos, if_neg, if_true, if_false]
  · exact ⟨List.Sublist.refl _, by simp⟩
  · exact ⟨(List.Sublist.refl _).cons₂ _ |>.trans
      (((List.sublist_cons_self _ _).cons₂ _)), by simp⟩

/-- C7: every record emitted by `scrapeGrants` whose deadline is rolling
carries neither `start` nor `end`, and the rolling record (Pollination
Project) is included for every reference time. -/
theorem rolling_no_window (t now : Int) :
    (∀ g ∈ scrapeGrants true t now, g.deadline.isRolling = true →
        g.deadline.start = none ∧ g.deadline.«end» = none) ∧
      pollinationRecord t now ∈ scrapeGrants true t now ∧
      (pollinationRecord t now).deadline.isRolling = true := by
  rw [scrapeGrants_true_eq]
  by_cases h : t ≤ jfEnd <;>
    simp only [h, if_true, if_false] <;>
    refine ⟨?_, by simp, rfl⟩ <;>
    intro g hg hr <;>
    simp only [List.mem_cons, List.mem_singleton, List.not_mem_nil] at hg
  · rcases hg with rfl | rfl | rfl | hg
    · exact ⟨rfl, rfl⟩
    · exact absurd hr (by simp [japanFoundationRecord])
    · exact absurd hr (by simp [saraiRecord])
    · exact absurd hg (by simp)
  · rcases hg with rfl | rfl | hg
    · exact ⟨rfl, rfl⟩
    · exact absurd hr (by simp [saraiRecord])
    · exact absurd hg (by simp)

/-- C7 witness: applying the invariant to the rolling record at
reference time 0. -/
theorem rolling_no_window_witness :
    (pollinationRecord 0 0).deadline.start = none ∧
      (pollinationRecord 0 0).deadline.«end» = none :=
  (rolling_no_window 0 0).1 _ (rolling_no_window 0 0).2.1
    (rolling_no_window 0 0).2.2

/-- C8: the printed status label is a two-way mapping on the record's
status: `active` renders as "募集中" (accepting applications) and every
other status — `upcoming` and `closed` alike — renders as "募集予定". -/
theorem statusLabel_two_way :
    statusLabel GrantStatus.active = "募集中" ∧
      ∀ s : GrantStatus, s ≠ GrantStatus.active → statusLabel s = "募集予定" := by
  refine ⟨rfl, ?_⟩
  intro s hs
  cases s
  · exact absurd rfl hs
  · rfl
  · rfl

/-- C8 witness: the `closed` status renders as the upcoming label. -/
theorem statusLabel_two_way_witness :
    statusLabel GrantStatus.closed = "募集予定" :=
  statusLabel_two_way.2 GrantStatus.closed (by decide)

/-- C9: with the browser handle still null (no initialisation),
`scrapeGrants` returns the empty list — not the static records and not
an error — and hence `getAllGrants` on an uninitialised scraper reports
zero grants. -/
theorem scrapeGrants_uninitialized (t now : Int) :
    scrapeGrants false t now = [] ∧ (getAllGrants false t now).length = 0 :=
  ⟨rfl, rfl⟩

/-- C10: every record emitted by `scrapeGrants` has a rolling deadline
or a populated `nextDeadline` (and for the non-rolling records
`nextDeadline` equals the `end` date); consequently `formatDeadline` on
any emitted record's deadline yields only the rolling label or the
next-deadline label — the range and fallback branches are unreachable
for catalog output. -/
theorem emitted_deadline_shape (b : Bool) (t now : Int) :
    ∀ g ∈ scrapeGrants b t now,
      (g.deadline.isRolling = true ∨ (g.deadline.nextDeadline).isSome = true) ∧
        (g.deadline.isRolling = false →
          g.deadline.nextDeadline = g.deadline.«end») ∧
        ∀ fmt : Int → String,
          formatDeadline fmt g.deadline = "常時募集中" ∨
            ∃ nd, g.deadline.nextDeadline = some nd ∧
              formatDeadline fmt g.deadline = "次回締切: " ++ fmt nd := by
  cases b
  · intro g hg
    simp [scrapeGrants] at hg
  · rw [scrapeGrants_true_eq]
    by_cases h : t ≤ jfEnd <;> simp only [h, if_true, if_false] <;>
      intro g hg <;> simp only [List.mem_cons, List.not_mem_nil, or_false] at hg
    · rcases hg with rfl | rfl | rfl
      · exact ⟨Or.inl rfl, fun hr => by simp [pollinationRecord] at hr,
          fun fmt => Or.inl rfl⟩
      · exact ⟨Or.inr rfl, fun _ => rfl, fun fmt => Or.inr ⟨jfEnd, rfl, rfl⟩⟩
      · exact ⟨Or.inr rfl, fun _ => rfl, fun fmt => Or.inr ⟨saraiEnd, rfl, rfl⟩⟩
    · rcases hg with rfl | rfl
      · exact ⟨Or.inl rfl, fun hr => by simp [pollinationRecord] at hr,
          fun fmt => Or.inl rfl⟩
      · exact ⟨Or.inr rfl, fun _ => rfl, fun fmt => Or.inr ⟨saraiEnd, rfl, rfl⟩⟩

/-- C10 witness: applying the invariant to the Pollination record in the
output at reference time 0. -/
theorem emitted_deadline_shape_witness :
    (pollinationRecord 0 0).deadline.isRolling = true ∨
      ((pollinationRecord 0 0).deadline.nextDeadline).isSome = true :=
  (emitted_deadline_shape true 0 0 (pollinationRecord 0 0)
      (by rw [scrapeGrants_true_eq, if_pos (by decide)]; simp)).1
